import Mathlib

/-!
Shallow embedding of `cornflex` (`src/cornflex/reader.py`), an SFTP reader
client built on top of paramiko, polars and chardet.

External libraries (paramiko transport, polars CSV parsing, chardet
detection, codec decoding) are modelled as an oracle `Env` of pure
functions; every observable interaction with them is recorded as an
`Event` in a trace.  Python exceptions are modelled with `Except Err`;
Python's truthiness of optional strings / lists is modelled explicitly.
-/

namespace Cornflex

/-- Python exceptions that can flow through the reader, tagged by kind.
`valueError` is the credential-misconfiguration error raised by `connect`,
`runtimeError` the "Not connected" error of the fetch operations,
`libError` any exception escaping an external library call, and
`typeError` the error `bytes.decode(None)` raises. -/
inductive Err where
  | valueError (msg : String)
  | runtimeError (msg : String)
  | libError (msg : String)
  | typeError (msg : String)
deriving DecidableEq

/-- `str(e)` for the exceptions above: the bare message. -/
def Err.message : Err → String
  | .valueError m => m
  | .runtimeError m => m
  | .libError m => m
  | .typeError m => m

/-- A private key loaded by `paramiko.RSAKey.from_private_key_file`. -/
structure PrivateKey where
  material : String
deriving DecidableEq

/-- The handle returned by `paramiko.SSHClient()`. -/
structure ClientHandle where
  mk ::
deriving DecidableEq

/-- The handle returned by `client.open_sftp()`. -/
abbrev SftpHandle : Type := Nat

/-- Raw bytes as returned by `file.read()`. -/
abbrev Bytes : Type := List Nat

/-- An opaque-to-us polars DataFrame produced by `pl.read_csv`. -/
structure DataFrame where
  tag : Nat
deriving DecidableEq

/-- The keyword arguments the code passes to `paramiko.SSHClient.connect`.
The `pkey` and `password` entries are only present in the Python dict when
set; absence is modelled by `none`. -/
structure ConnectKwargs where
  hostname : String
  port : Nat
  username : String
  timeout : Nat
  pkey : Option PrivateKey
  password : Option String
deriving DecidableEq

/-- Observable interactions with the external libraries, in order. -/
inductive Event where
  | transportConnect (kwargs : ConnectKwargs)
  | openSftp
  | listdir (path : String)
  | fileRead (path : String)
  | readCsvHeader (content : String)
  | readCsvNoHeader (content : String) (cols : List String)
  | sftpClose
  | clientClose
  | printLine (line : String)
deriving DecidableEq

/-- Oracle fixing the behaviour of every external call the reader makes.
Each field gives the outcome of one library operation. -/
structure Env where
  loadKey : String → Except Err PrivateKey
  connectResult : ConnectKwargs → Except Err Unit
  openSftpResult : Except Err SftpHandle
  listdirResult : String → Except Err (List String)
  readResult : String → Except Err Bytes
  decode : String → Bytes → Except Err String
  detect : Bytes → Option String
  readCsvHeader : String → Except Err DataFrame
  readCsvNoHeader : String → List String → Except Err DataFrame
  sftpCloseResult : Except Err Unit
  clientCloseResult : Except Err Unit

/-- Python truthiness of an `Optional[str]`: `None` and `""` are falsy. -/
def truthy : Option String → Bool
  | none => false
  | some s => !(s == "")

/-- Python truthiness of an `Optional[list[str]]`: `None` and `[]` are falsy. -/
def truthyList : Option (List String) → Bool
  | none => false
  | some l => !l.isEmpty

/-- `remote_path.rstrip('/')`: removes ALL trailing `/` characters. -/
def rstripSlashes (s : String) : String :=
  String.mk ((s.toList.reverse.dropWhile (fun c => c == '/')).reverse)

/-- `f"{remote_path.rstrip('/')}/{file_name}"` as built by the three fetch
operations. -/
def remote_file_path (remote_path file_name : String) : String :=
  rstripSlashes remote_path ++ "/" ++ file_name

/-- Membership of a character in a glob bracket set, with `a-b` ranges as
in `fnmatch`; a `-` that is first, last, or part of an incomplete range is
literal. -/
def inSet : List Char → Char → Bool
  | [], _ => false
  | a :: '-' :: b :: rest, c => (a ≤ c && c ≤ b) || inSet rest c
  | a :: rest, c => (a == c) || inSet rest c

/-- Scan for the closing `]` of a bracket set, returning the body and the
remainder of the pattern. -/
def findClose : List Char → Option (List Char × List Char)
  | [] => none
  | ']' :: rest => some ([], rest)
  | c :: rest =>
    match findClose rest with
    | some (body, r) => some (c :: body, r)
    | none => none

/-- Parse the pattern after a `[`: an optional leading `!` negates, a `]`
directly after that is a literal member, and a missing closing `]` means
the `[` itself is literal (signalled by `none`). -/
def splitBracket (p : List Char) : Option (Bool × List Char × List Char) :=
  let stripped : Bool × List Char :=
    match p with
    | '!' :: r => (true, r)
    | _ => (false, p)
  match stripped.2 with
  | ']' :: r2 =>
    match findClose r2 with
    | some (body, rest) => some (stripped.1, ']' :: body, rest)
    | none => none
  | other =>
    match findClose other with
    | some (body, rest) => some (stripped.1, body, rest)
    | none => none

/-- Fueled core of shell-glob matching (`*`, `?`, `[...]`, case-sensitive
as on POSIX `fnmatch.fnmatch`).  Each step consumes one fuel unit while
shrinking `pattern.length + name.length`, so fuel
`pattern.length + name.length + 1` always suffices. -/
def globMatchAux : Nat → List Char → List Char → Bool
  | 0, _, _ => false
  | _ + 1, [], s => s.isEmpty
  | fuel + 1, '*' :: p, s =>
    globMatchAux fuel p s ||
      (match s with
       | [] => false
       | _ :: s' => globMatchAux fuel ('*' :: p) s')
  | fuel + 1, '?' :: p, s =>
    (match s with
     | [] => false
     | _ :: s' => globMatchAux fuel p s')
  | fuel + 1, '[' :: p, s =>
    (match splitBracket p with
     | some (neg, body, rest) =>
       (match s with
        | [] => false
        | c :: s' => (inSet body c != neg) && globMatchAux fuel rest s')
     | none =>
       (match s with
        | [] => false
        | c :: s' => (c == '[') && globMatchAux fuel p s'))
  | fuel + 1, c :: p, s =>
    (match s with
     | [] => false
     | c' :: s' => (c == c') && globMatchAux fuel p s')

/-- `fnmatch.fnmatch(name=name, pat=pat)` on a POSIX platform
(case-sensitive: `os.path.normcase` is the identity there). -/
def fnmatch (name pat : String) : Bool :=
  globMatchAux (pat.length + name.length + 1) pat.toList name.toList

/-- The `SFTPReader` dataclass: connection parameters plus the two handle
fields `_client` and `_sftp` initialised to `None` by `__post_init__`. -/
structure SFTPReader where
  hostname : String
  username : String
  pem_file : Option String
  password : Option String
  port : Nat
  _client : Option ClientHandle
  _sftp : Option SftpHandle
deriving DecidableEq

/-- `SFTPReader(...)` construction: `__post_init__` sets both handles to
`None`. -/
def SFTPReader.make (hostname username : String) (pem_file password : Option String)
    (port : Nat) : SFTPReader :=
  { hostname := hostname, username := username, pem_file := pem_file,
    password := password, port := port, _client := none, _sftp := none }

/-- `self._client = paramiko.SSHClient()`: the client handle is stored on
the instance before the transport connection is attempted. -/
def clientCreated (r : SFTPReader) : SFTPReader :=
  { r with _client := some ClientHandle.mk }

/-- The fixed part of `connect_kwargs` (hostname, port, username and the
30-unit timeout). -/
def baseKwargs (r : SFTPReader) : ConnectKwargs :=
  { hostname := r.hostname, port := r.port, username := r.username,
    timeout := 30, pkey := none, password := none }

/-- The credential part of `connect_kwargs`: when `pem_file` is truthy the
key is loaded (any loading exception propagates) and passed as `pkey`;
otherwise the password is passed.  The branch on `pem_file` comes first,
so the key wins when both are set. -/
def credKwargs (env : Env) (r : SFTPReader) : Except Err ConnectKwargs :=
  if truthy r.pem_file then
    match env.loadKey (r.pem_file.getD "") with
    | .ok k => .ok { baseKwargs r with pkey := some k }
    | .error e => .error e
  else
    .ok { baseKwargs r with password := r.password }

/-- `SFTPReader.connect`: raises `ValueError` when neither credential is
truthy; otherwise creates the client handle, builds the kwargs, attempts
the transport connection and opens the SFTP channel.  Returns
(outcome, new state, trace). -/
def connect (env : Env) (r : SFTPReader) :
    Except Err Unit × SFTPReader × List Event :=
  if !truthy r.password && !truthy r.pem_file then
    (.error (.valueError "Either password or pem_file must be provided"), r, [])
  else
    match credKwargs env r with
    | .error e => (.error e, clientCreated r, [])
    | .ok kw =>
      match env.connectResult kw with
      | .error e => (.error e, clientCreated r, [.transportConnect kw])
      | .ok _ =>
        match env.openSftpResult with
        | .error e => (.error e, clientCreated r, [.transportConnect kw, .openSftp])
        | .ok h =>
          (.ok (), { clientCreated r with _sftp := some h },
            [.transportConnect kw, .openSftp])

/-- `SFTPReader.close`: closes the SFTP handle if set, then the client
handle if set.  Neither handle field is reset.  A failure of an underlying
`close` call propagates (there is no exception handling), skipping the
rest. -/
def close (env : Env) (r : SFTPReader) :
    Except Err Unit × SFTPReader × List Event :=
  match r._sftp with
  | some _ =>
    (match env.sftpCloseResult with
     | .error e => (.error e, r, [.sftpClose])
     | .ok _ =>
       match r._client with
       | some _ =>
         (match env.clientCloseResult with
          | .error e => (.error e, r, [.sftpClose, .clientClose])
          | .ok _ => (.ok (), r, [.sftpClose, .clientClose]))
       | none => (.ok (), r, [.sftpClose]))
  | none =>
    match r._client with
    | some _ =>
      (match env.clientCloseResult with
       | .error e => (.error e, r, [.clientClose])
       | .ok _ => (.ok (), r, [.clientClose]))
    | none => (.ok (), r, [])

/-- The `try` block of `SFTPReader.get_files`: `self._sftp.listdir` plus
the `fnmatch` filter.  `get_files` runs `self.connect()` OUTSIDE this
block, and `self.close()` is the `finally` clause; per Python
`try/finally` semantics an exception raised by the `finally` block
replaces any in-flight result. -/
def get_files_body (env : Env) (r1 : SFTPReader) (remote_path file_pattern : String) :
    Except Err (List String) × List Event :=
  match r1._sftp with
  | none => (.error (.libError "AttributeError"), [])
  | some _ =>
    match env.listdirResult remote_path with
    | .error e => (.error e, [.listdir remote_path])
    | .ok files =>
      (.ok (files.filter (fun f => fnmatch f file_pattern)), [.listdir remote_path])

/-- `SFTPReader.get_files` itself: connect, then the guarded body, with
`close` as the `finally` block. -/
def get_files (env : Env) (r : SFTPReader) (remote_path file_pattern : String) :
    Except Err (List String) × SFTPReader × List Event :=
  match connect env r with
  | (.error e, r1, ev) => (.error e, r1, ev)
  | (.ok _, r1, ev) =>
    match close env r1 with
    | (.error e2, r2, evc) =>
      (.error e2, r2, ev ++ (get_files_body env r1 remote_path file_pattern).2 ++ evc)
    | (.ok _, r2, evc) =>
      match (get_files_body env r1 remote_path file_pattern).1 with
      | .ok v => (.ok v, r2, ev ++ (get_files_body env r1 remote_path file_pattern).2 ++ evc)
      | .error e =>
        (.error e, r2, ev ++ (get_files_body env r1 remote_path file_pattern).2 ++ evc)

/-- The `try` block of `get_csv_file`: read, decode as UTF-8, then parse —
with `new_columns` and no header when `column_names` is truthy, else with
the first line as header. -/
def get_csv_file_body (env : Env) (file_name remote_path : String)
    (column_names : Option (List String)) : Except Err DataFrame × List Event :=
  match env.readResult (remote_file_path remote_path file_name) with
  | .error e => (.error e, [.fileRead (remote_file_path remote_path file_name)])
  | .ok raw =>
    match env.decode "utf-8" raw with
    | .error e => (.error e, [.fileRead (remote_file_path remote_path file_name)])
    | .ok content =>
      if truthyList column_names then
        (env.readCsvNoHeader content (column_names.getD []),
          [.fileRead (remote_file_path remote_path file_name),
            .readCsvNoHeader content (column_names.getD [])])
      else
        (env.readCsvHeader content,
          [.fileRead (remote_file_path remote_path file_name), .readCsvHeader content])

/-- `SFTPReader.get_csv_file`: raises `RuntimeError` when `_sftp` is not
set; otherwise runs the body, and on any exception prints
`Error getting <file_name>: <e>` and returns `None`. -/
def get_csv_file (env : Env) (r : SFTPReader) (file_name remote_path : String)
    (column_names : Option (List String)) :
    Except Err (Option DataFrame) × SFTPReader × List Event :=
  match r._sftp with
  | none => (.error (.runtimeError "Not connected. Call connect() first."), r, [])
  | some _ =>
    match get_csv_file_body env file_name remote_path column_names with
    | (.ok df, ev) => (.ok (some df), r, ev)
    | (.error e, ev) =>
      (.ok none, r, ev ++ [.printLine ("Error getting " ++ file_name ++ ": " ++ e.message)])

/-- The `try` block of `get_xml_file_to_string`: read and decode as
UTF-8. -/
def get_xml_file_to_string_body (env : Env) (file_name remote_path : String) :
    Except Err String × List Event :=
  match env.readResult (remote_file_path remote_path file_name) with
  | .error e => (.error e, [.fileRead (remote_file_path remote_path file_name)])
  | .ok raw =>
    match env.decode "utf-8" raw with
    | .error e => (.error e, [.fileRead (remote_file_path remote_path file_name)])
    | .ok content => (.ok content, [.fileRead (remote_file_path remote_path file_name)])

/-- `SFTPReader.get_xml_file_to_string`: same guard and fail-soft wrapper
as `get_csv_file`. -/
def get_xml_file_to_string (env : Env) (r : SFTPReader) (file_name remote_path : String) :
    Except Err (Option String) × SFTPReader × List Event :=
  match r._sftp with
  | none => (.error (.runtimeError "Not connected. Call connect() first."), r, [])
  | some _ =>
    match get_xml_file_to_string_body env file_name remote_path with
    | (.ok s, ev) => (.ok (some s), r, ev)
    | (.error e, ev) =>
      (.ok none, r, ev ++ [.printLine ("Error getting " ++ file_name ++ ": " ++ e.message)])

/-- The `try` block of `file_to_string`: read raw bytes, run chardet when
no encoding was supplied (`chardet` may report `None`, in which case
`bytes.decode(None)` raises `TypeError`), then decode with the chosen
encoding. -/
def file_to_string_body (env : Env) (file_name remote_path : String)
    (encoding : Option String) : Except Err String × List Event :=
  match env.readResult (remote_file_path remote_path file_name) with
  | .error e => (.error e, [.fileRead (remote_file_path remote_path file_name)])
  | .ok raw =>
    match (match encoding with
           | none => env.detect raw
           | some e => some e) with
    | none =>
      (.error (.typeError "decode argument must be str, not None"),
        [.fileRead (remote_file_path remote_path file_name)])
    | some encName =>
      match env.decode encName raw with
      | .error e => (.error e, [.fileRead (remote_file_path remote_path file_name)])
      | .ok content =>
        (.ok content, [.fileRead (remote_file_path remote_path file_name)])

/-- `SFTPReader.file_to_string`: same guard and fail-soft wrapper as
`get_csv_file`. -/
def file_to_string (env : Env) (r : SFTPReader) (file_name remote_path : String)
    (encoding : Option String) :
    Except Err (Option String) × SFTPReader × List Event :=
  match r._sftp with
  | none => (.error (.runtimeError "Not connected. Call connect() first."), r, [])
  | some _ =>
    match file_to_string_body env file_name remote_path encoding with
    | (.ok s, ev) => (.ok (some s), r, ev)
    | (.error e, ev) =>
      (.ok none, r, ev ++ [.printLine ("Error getting " ++ file_name ++ ": " ++ e.message)])

/-- The diagnostic line printed on the fail-soft path. -/
def errorLine (file_name : String) (e : Err) : String :=
  "Error getting " ++ file_name ++ ": " ++ e.message

/-- Drop exactly one leading `/` from a character list, if present. -/
def dropOneSlash (l : List Char) : List Char :=
  match l with
  | [] => []
  | c :: t => if c = '/' then t else c :: t

/-- Follows the spec's words, for comparison with `rstripSlashes`:
"strip exactly one trailing `/` from the directory before joining"
(one leading slash of the reversed character list). -/
def stripOneTrailingSlash (s : String) : String :=
  String.mk ((dropOneSlash s.toList.reverse).reverse)

/-- Follows the spec's words: the directory with exactly one trailing `/`
stripped, joined with `/` and the file name. -/
def joinStripOne (remote_path file_name : String) : String :=
  stripOneTrailingSlash remote_path ++ "/" ++ file_name

/- Concrete fixtures used to instantiate the theorems. -/

/-- An environment in which every external call succeeds. -/
def envBase : Env :=
  { loadKey := fun p => .ok { material := p },
    connectResult := fun _ => .ok (),
    openSftpResult := .ok 0,
    listdirResult := fun _ => .ok [],
    readResult := fun _ => .ok [],
    decode := fun _ _ => .ok "",
    detect := fun _ => some "utf-8",
    readCsvHeader := fun _ => .ok { tag := 0 },
    readCsvNoHeader := fun _ _ => .ok { tag := 1 },
    sftpCloseResult := .ok (),
    clientCloseResult := .ok () }

/-- A password-authenticated reader as constructed by the dataclass. -/
def readerPw : SFTPReader := SFTPReader.make "host" "user" none (some "pass") 22

/-- A reader with both a password and a key file set. -/
def readerBoth : SFTPReader :=
  SFTPReader.make "host" "user" (some "/k.pem") (some "pass") 22

/-- A reader constructed with neither credential. -/
def readerNoCred : SFTPReader := SFTPReader.make "host" "user" none none 22

/-- The kwargs `connect` builds for `readerPw`. -/
def kwPw : ConnectKwargs :=
  { hostname := "host", port := 22, username := "user", timeout := 30,
    pkey := none, password := some "pass" }

/-- `readerPw` after a successful `connect` against `envBase`. -/
def readerConnected : SFTPReader :=
  { readerPw with _client := some ClientHandle.mk, _sftp := some 0 }

/-- `envBase` with a failing transport connection. -/
def envConnFail : Env :=
  { envBase with connectResult := fun _ => .error (.libError "boom") }

/-- `envBase` with a failing directory listing. -/
def envListFail : Env :=
  { envBase with listdirResult := fun _ => .error (.libError "listing failed") }

/-- `envBase` with a failing SFTP-channel close. -/
def envSftpCloseFail : Env :=
  { envBase with sftpCloseResult := .error (.libError "close failed") }

/-- `envBase` with a failing file read. -/
def envReadFail : Env :=
  { envBase with readResult := fun _ => .error (.libError "io fail") }

/-- `envBase` listing three files. -/
def envListing : Env :=
  { envBase with
    listdirResult := fun _ => .ok ["orders.csv", "users.csv", "config.json"] }

/-- `envBase` listing two non-matching files. -/
def envListing2 : Env :=
  { envBase with listdirResult := fun _ => .ok ["config.json", "notes.txt"] }

/-- `envBase` in which reading yields bytes decoding to a two-line CSV
body with no header line. -/
def envCsv : Env :=
  { envBase with
    readResult := fun _ => .ok [49],
    decode := fun _ _ => .ok "1,Alice\n2,Bob" }

/- Helper lemmas shared by the claim theorems. -/

/-- `String.mk` is a left inverse of `String.toList`. -/
theorem stringMk_toList (s : String) : String.mk s.toList = s := rfl

/-- `close` never changes the reader state: the handle fields are not
reset. -/
theorem close_preserves_state (env : Env) (r : SFTPReader) :
    (close env r).2.1 = r := by
  cases h1 : r._sftp <;> cases h2 : r._client <;>
    cases h3 : env.sftpCloseResult <;> cases h4 : env.clientCloseResult <;>
      simp [close, h1, h2, h3, h4]

/-- When both handles are set and both underlying closes succeed, `close`
closes the SFTP channel and then the client. -/
theorem close_both_ok (env : Env) (r : SFTPReader) (h : SftpHandle) (c : ClientHandle)
    (h1 : r._sftp = some h) (h2 : r._client = some c)
    (hs : env.sftpCloseResult = .ok ()) (hcl : env.clientCloseResult = .ok ()) :
    close env r = (.ok (), r, [.sftpClose, .clientClose]) := by
  simp [close, h1, h2, hs, hcl]

/-- A successful `connect` leaves the reader with both handle fields
set. -/
theorem connect_ok_state (env : Env) (r : SFTPReader) (u : Unit) (r1 : SFTPReader)
    (ev : List Event) (hc : connect env r = (.ok u, r1, ev)) :
    ∃ h : SftpHandle,
      r1 = { clientCreated r with _sftp := some h } := by
  unfold connect at hc
  split at hc
  · simp at hc
  · split at hc
    · simp at hc
    · split at hc
      · simp at hc
      · split at hc
        · simp at hc
        · rename_i h heq
          refine ⟨h, ?_⟩
          have := congrArg (fun p => p.2.1) hc
          simpa using this.symm

/-- The behaviour of `get_files` after a successful `connect` with
well-behaved closes: the body runs and `close` runs afterwards, on both
the error path and the success path of the listing. -/
theorem get_files_spec (env : Env) (r : SFTPReader) (remote_path file_pattern : String)
    (u : Unit) (r1 : SFTPReader) (ev : List Event)
    (hc : connect env r = (.ok u, r1, ev))
    (hs : env.sftpCloseResult = .ok ()) (hcl : env.clientCloseResult = .ok ()) :
    (∀ e, env.listdirResult remote_path = .error e →
      get_files env r remote_path file_pattern =
        (.error e, r1, ev ++ [.listdir remote_path] ++ [.sftpClose, .clientClose])) ∧
    (∀ files, env.listdirResult remote_path = .ok files →
      get_files env r remote_path file_pattern =
        (.ok (files.filter (fun f => fnmatch f file_pattern)), r1,
          ev ++ [.listdir remote_path] ++ [.sftpClose, .clientClose])) := by
  obtain ⟨h, hr1⟩ := connect_ok_state env r u r1 ev hc
  have hsftp : r1._sftp = some h := by rw [hr1]
  have hclient : r1._client = some ClientHandle.mk := by rw [hr1]; rfl
  have hclose : close env r1 = (.ok (), r1, [.sftpClose, .clientClose]) :=
    close_both_ok env r1 h ClientHandle.mk hsftp hclient hs hcl
  constructor
  · intro e hl
    simp [get_files, hc, hclose, get_files_body, hsftp, hl]
  · intro files hl
    simp [get_files, hc, hclose, get_files_body, hsftp, hl]

/-- The reader obtained by connecting `readerPw` against `envBase` and
then closing: both handle fields are still set. -/
def readerConnClosed : SFTPReader :=
  (close envBase (connect envBase readerPw).2.1).2.1

/-- Claim C2, counterexample: on a client that connected and then called
`close()`, `get_csv_file` does NOT fail with the not-connected
`RuntimeError`; the `_sftp` handle is still set, the network read is
attempted (the `fileRead` event occurs) and the call succeeds. -/
theorem c2_counterexample :
    readerConnClosed._sftp = some 0 ∧
    get_csv_file envBase readerConnClosed "f.csv" "." none =
      (.ok (some { tag := 0 }), readerConnClosed,
        [.fileRead "./f.csv", .readCsvHeader ""]) ∧
    Event.fileRead "./f.csv" ∈
      (get_csv_file envBase readerConnClosed "f.csv" "." none).2.2 :=
  ⟨rfl, rfl, by decide⟩

/-- Claim C2 (amended): the three content-fetch operations fail with the
not-connected `RuntimeError` — without any network event — exactly when
the `_sftp` field is unset, i.e. when `connect` has never succeeded on
the client; `close()` does not reset the handle fields, so a client that
connected and then closed is NOT in that state. -/
theorem c2_not_connected_guard (env : Env) (r : SFTPReader)
    (fn rp : String) (cols : Option (List String)) (enc : Option String) :
    (r._sftp = none →
      get_csv_file env r fn rp cols =
        (.error (.runtimeError "Not connected. Call connect() first."), r, []) ∧
      get_xml_file_to_string env r fn rp =
        (.error (.runtimeError "Not connected. Call connect() first."), r, []) ∧
      file_to_string env r fn rp enc =
        (.error (.runtimeError "Not connected. Call connect() first."), r, [])) ∧
    (close env r).2.1 = r := by
  constructor
  · intro h
    refine ⟨?_, ?_, ?_⟩ <;>
      simp [get_csv_file, get_xml_file_to_string, file_to_string, h]
  · exact close_preserves_state env r

/-- Witness for C2's theorem at a freshly constructed reader. -/
theorem c2_not_connected_guard_witness :
    get_csv_file envBase readerPw "f.csv" "." none =
      (.error (.runtimeError "Not connected. Call connect() first."), readerPw, []) ∧
    file_to_string envBase readerPw "f.txt" "." none =
      (.error (.runtimeError "Not connected. Call connect() first."), readerPw, []) :=
  ⟨((c2_not_connected_guard envBase readerPw "f.csv" "." none none).1 rfl).1,
   ((c2_not_connected_guard envBase readerPw "f.txt" "." none none).1 rfl).2.2⟩

/-- A reader in the connected state (both handles set). -/
def readerOpen : SFTPReader :=
  { readerPw with _client := some ClientHandle.mk, _sftp := some 0 }

/-- Claim C3, counterexample: when the underlying SFTP-channel close
fails, `close()` propagates that error and the transport close never
runs. -/
theorem c3_counterexample :
    close envSftpCloseFail readerOpen =
      (.error (.libError "close failed"), readerOpen, [.sftpClose]) ∧
    Event.clientClose ∉ [Event.sftpClose] :=
  ⟨rfl, by decide⟩

/-- Claim C3 (amended): `close()` is a safe no-op when nothing is open,
and when the underlying close calls succeed it closes the file subsystem
first and then the transport; but a failure of an underlying close call
propagates out of `close()`, and a failing file-subsystem close skips the
transport close. -/
theorem c3_close_behaviour (env : Env) (r : SFTPReader) :
    (r._sftp = none → r._client = none → close env r = (.ok (), r, [])) ∧
    (∀ h c, r._sftp = some h → r._client = some c →
      env.sftpCloseResult = .ok () → env.clientCloseResult = .ok () →
      close env r = (.ok (), r, [.sftpClose, .clientClose])) ∧
    (∀ h e, r._sftp = some h → env.sftpCloseResult = .error e →
      close env r = (.error e, r, [.sftpClose])) := by
  refine ⟨fun h1 h2 => by simp [close, h1, h2], ?_, ?_⟩
  · intro h c h1 h2 hs hcl
    exact close_both_ok env r h c h1 h2 hs hcl
  · intro h e h1 hs
    simp [close, h1, hs]

/-- Witness for C3's theorem: the no-op case on a fresh reader, the
ordered-close case on an open one, and the propagating case under a
failing SFTP close. -/
theorem c3_close_behaviour_witness :
    close envBase readerPw = (.ok (), readerPw, []) ∧
    close envBase readerOpen = (.ok (), readerOpen, [.sftpClose, .clientClose]) ∧
    close envSftpCloseFail readerOpen =
      (.error (.libError "close failed"), readerOpen, [.sftpClose]) :=
  ⟨(c3_close_behaviour envBase readerPw).1 rfl rfl,
   (c3_close_behaviour envBase readerOpen).2.1 0 ClientHandle.mk rfl rfl rfl rfl,
   (c3_close_behaviour envSftpCloseFail readerOpen).2.2 0 (.libError "close failed") rfl rfl⟩

/-- Claim C5: on a connected client, any exception escaping the body of a
content-fetch operation (read, decode, detection or parse) is caught; the
operation emits exactly one diagnostic line
`Error getting <file_name>: <detail>` and returns `None`. -/
theorem c5_fail_soft (env : Env) (r : SFTPReader) (fn rp : String)
    (cols : Option (List String)) (enc : Option String) (h : SftpHandle)
    (hconn : r._sftp = some h) :
    (∀ e ev, get_csv_file_body env fn rp cols = (.error e, ev) →
      get_csv_file env r fn rp cols =
        (.ok none, r, ev ++ [.printLine (errorLine fn e)])) ∧
    (∀ e ev, get_xml_file_to_string_body env fn rp = (.error e, ev) →
      get_xml_file_to_string env r fn rp =
        (.ok none, r, ev ++ [.printLine (errorLine fn e)])) ∧
    (∀ e ev, file_to_string_body env fn rp enc = (.error e, ev) →
      file_to_string env r fn rp enc =
        (.ok none, r, ev ++ [.printLine (errorLine fn e)])) := by
  refine ⟨?_, ?_, ?_⟩ <;> intro e ev hb
  · simp [get_csv_file, hconn, hb, errorLine, Err.message]
  · simp [get_xml_file_to_string, hconn, hb, errorLine, Err.message]
  · simp [file_to_string, hconn, hb, errorLine, Err.message]

/-- Witness for C5's theorem: a failing read on each of the three
operations yields `None` plus the exact diagnostic line. -/
theorem c5_fail_soft_witness :
    get_csv_file envReadFail readerOpen "bad.csv" "." none =
      (.ok none, readerOpen,
        [.fileRead "./bad.csv", .printLine "Error getting bad.csv: io fail"]) ∧
    get_xml_file_to_string envReadFail readerOpen "bad.xml" "." =
      (.ok none, readerOpen,
        [.fileRead "./bad.xml", .printLine "Error getting bad.xml: io fail"]) ∧
    file_to_string envReadFail readerOpen "bad.txt" "." none =
      (.ok none, readerOpen,
        [.fileRead "./bad.txt", .printLine "Error getting bad.txt: io fail"]) :=
  ⟨(c5_fail_soft envReadFail readerOpen "bad.csv" "." none none 0 rfl).1
      (.libError "io fail") [.fileRead "./bad.csv"] rfl,
   (c5_fail_soft envReadFail readerOpen "bad.xml" "." none none 0 rfl).2.1
      (.libError "io fail") [.fileRead "./bad.xml"] rfl,
   (c5_fail_soft envReadFail readerOpen "bad.txt" "." none none 0 rfl).2.2
      (.libError "io fail") [.fileRead "./bad.txt"] rfl⟩

/-- Claim C6: for every environment and every reader whose password and
key file are both unset, `connect` raises the credential `ValueError`
with an empty trace — no transport connection is attempted — and the
state is unchanged.  Hostname and username are arbitrary. -/
theorem c6_missing_credentials (env : Env) (r : SFTPReader)
    (hp : r.password = none) (hk : r.pem_file = none) :
    connect env r =
      (.error (.valueError "Either password or pem_file must be provided"), r, []) := by
  simp [connect, truthy, hp, hk]

/-- Witness for C6's theorem on a concrete credential-less reader. -/
theorem c6_missing_credentials_witness :
    connect envBase readerNoCred =
      (.error (.valueError "Either password or pem_file must be provided"),
        readerNoCred, []) :=
  c6_missing_credentials envBase readerNoCred rfl rfl

/-- Claim C7: when both the password and the key file are set and the key
loads, the transport connection is attempted with `pkey` set to the
loaded key and with NO `password` entry in the kwargs: the key-auth path
wins. -/
theorem c7_key_precedence (env : Env) (r : SFTPReader) (pw pf : String) (k : PrivateKey)
    (hpw : r.password = some pw) (hpwne : pw ≠ "")
    (hpf : r.pem_file = some pf) (hpfne : pf ≠ "")
    (hk : env.loadKey pf = .ok k) :
    (connect env r).2.2.head? = some (.transportConnect
      { hostname := r.hostname, port := r.port, username := r.username,
        timeout := 30, pkey := some k, password := none }) := by
  have ht : truthy r.password = true := by simp [truthy, hpw, hpwne]
  have ht2 : truthy r.pem_file = true := by simp [truthy, hpf, hpfne]
  have hgd : r.pem_file.getD "" = pf := by rw [hpf]; rfl
  have hcred : credKwargs env r = .ok
      { hostname := r.hostname, port := r.port, username := r.username,
        timeout := 30, pkey := some k, password := none } := by
    simp [credKwargs, ht2, hgd, hk, baseKwargs]
  cases hcr : env.connectResult
      { hostname := r.hostname, port := r.port, username := r.username,
        timeout := 30, pkey := some k, password := none } with
  | error e => simp [connect, ht, ht2, hcred, hcr]
  | ok u =>
    cases hop : env.openSftpResult with
    | error e2 => simp [connect, ht, ht2, hcred, hcr, hop]
    | ok hh => simp [connect, ht, ht2, hcred, hcr, hop]

/-- Witness for C7's theorem on a reader with both credentials set. -/
theorem c7_key_precedence_witness :
    (connect envBase readerBoth).2.2.head? = some (.transportConnect
      { hostname := "host", port := 22, username := "user", timeout := 30,
        pkey := some { material := "/k.pem" }, password := none }) :=
  c7_key_precedence envBase readerBoth "pass" "/k.pem" { material := "/k.pem" }
    rfl (by decide) rfl (by decide) rfl

/-- Claim C1, counterexample: when the transport connection inside
`connect()` fails, `get_files` propagates the error WITHOUT running
`close()` — `connect()` is called outside the `try/finally` block — even
though the client handle has already been stored on the instance.  The
trace holds no close event. -/
theorem c1_counterexample :
    get_files envConnFail readerPw "." "*" =
      (.error (.libError "boom"), clientCreated readerPw,
        [.transportConnect kwPw]) ∧
    Event.sftpClose ∉ [Event.transportConnect kwPw] ∧
    Event.clientClose ∉ [Event.transportConnect kwPw] ∧
    (clientCreated readerPw)._client = some ClientHandle.mk :=
  ⟨rfl, by decide, by decide, rfl⟩

/-- Claim C1 (amended): once `connect()` has succeeded, `get_files` runs
`close()` on every exit of the listing call — both when the listing fails
(the error propagates after the close events) and when it succeeds; a
failure during `connect()` itself, however, propagates without `close()`
running. -/
theorem c1_get_files_close_scope (env : Env) (r : SFTPReader)
    (remote_path file_pattern : String) (u : Unit) (r1 : SFTPReader) (ev : List Event)
    (hc : connect env r = (.ok u, r1, ev))
    (hs : env.sftpCloseResult = .ok ()) (hcl : env.clientCloseResult = .ok ()) :
    (∀ e, env.listdirResult remote_path = .error e →
      get_files env r remote_path file_pattern =
        (.error e, r1, ev ++ [.listdir remote_path] ++ [.sftpClose, .clientClose])) ∧
    (∀ files, env.listdirResult remote_path = .ok files →
      get_files env r remote_path file_pattern =
        (.ok (files.filter (fun f => fnmatch f file_pattern)), r1,
          ev ++ [.listdir remote_path] ++ [.sftpClose, .clientClose])) :=
  get_files_spec env r remote_path file_pattern u r1 ev hc hs hcl

/-- Witness for C1's theorem: with a failing listing, the error
propagates and both close events are in the trace after the listing
event. -/
theorem c1_get_files_close_scope_witness :
    get_files envListFail readerPw "." "*" =
      (.error (.libError "listing failed"), readerConnected,
        [.transportConnect kwPw, .openSftp] ++ [.listdir "."] ++
          [.sftpClose, .clientClose]) :=
  (c1_get_files_close_scope envListFail readerPw "." "*" () readerConnected
    [.transportConnect kwPw, .openSftp] rfl rfl rfl).1 (.libError "listing failed") rfl

/-- Claim C8: after a successful connect with well-behaved closes,
`get_files` returns exactly the sub-list of the remote listing whose
names glob-match the pattern (case-sensitive `*`, `?`, `[...]` via
`fnmatch`), in the original relative order (a sublist of the listing),
with membership characterised by match success. -/
theorem c8_list_glob_filter (env : Env) (r : SFTPReader)
    (remote_path file_pattern : String) (u : Unit) (r1 : SFTPReader)
    (ev : List Event) (files : List String)
    (hc : connect env r = (.ok u, r1, ev))
    (hl : env.listdirResult remote_path = .ok files)
    (hs : env.sftpCloseResult = .ok ()) (hcl : env.clientCloseResult = .ok ()) :
    (get_files env r remote_path file_pattern).1 =
      .ok (files.filter (fun f => fnmatch f file_pattern)) ∧
    (files.filter (fun f => fnmatch f file_pattern)).Sublist files ∧
    (∀ f, f ∈ files.filter (fun f => fnmatch f file_pattern) ↔
      (f ∈ files ∧ fnmatch f file_pattern = true)) := by
  refine ⟨?_, List.filter_sublist files, fun f => List.mem_filter⟩
  rw [(get_files_spec env r remote_path file_pattern u r1 ev hc hs hcl).2 files hl]

/-- Witness for C8's theorem: the two listings of the spec's examples. -/
theorem c8_list_glob_filter_witness :
    (get_files envListing readerPw "/data" "*.csv").1 =
      .ok ["orders.csv", "users.csv"] ∧
    (get_files envListing2 readerPw "." "*.csv").1 = .ok [] := by
  constructor
  · rw [(c8_list_glob_filter envListing readerPw "/data" "*.csv" () readerConnected
      [.transportConnect kwPw, .openSftp] ["orders.csv", "users.csv", "config.json"]
      rfl rfl rfl rfl).1]
    rfl
  · rw [(c8_list_glob_filter envListing2 readerPw "." "*.csv" () readerConnected
      [.transportConnect kwPw, .openSftp] ["config.json", "notes.txt"]
      rfl rfl rfl rfl).1]
    rfl

/-- `List.dropWhile` on the slash predicate removes exactly the head
slash when the list does not begin with two slashes. -/
theorem dropWhile_slash_single (l : List Char) (h : l.take 2 ≠ ['/', '/']) :
    l.dropWhile (fun c => c == '/') = dropOneSlash l := by
  match l with
  | [] => simp [dropOneSlash]
  | c :: t =>
    by_cases hc : c = '/'
    · subst hc
      match t with
      | [] => simp [List.dropWhile, dropOneSlash]
      | c2 :: t2 =>
        by_cases hc2 : c2 = '/'
        · subst hc2
          exact absurd rfl h
        · have h2 : (c2 == '/') = false := by simp [hc2]
          simp [List.dropWhile, dropOneSlash, h2]
    · have h1 : (c == '/') = false := by simp [hc]
      simp [List.dropWhile, dropOneSlash, h1, hc]

/-- On inputs with at most one trailing slash, `rstrip('/')` agrees with
the spec's "strip exactly one trailing slash". -/
theorem rstrip_eq_stripOne (s : String) (h : s.toList.reverse.take 2 ≠ ['/', '/']) :
    rstripSlashes s = stripOneTrailingSlash s := by
  unfold rstripSlashes stripOneTrailingSlash
  rw [dropWhile_slash_single _ h]

/-- Claim C4, counterexample: the code strips ALL trailing slashes, not
exactly one: on `remote_path = "/data//"` the requested path is
`"/data/f.csv"`, while stripping exactly one slash would give
`"/data//f.csv"`. -/
theorem c4_counterexample :
    remote_file_path "/data//" "f.csv" = "/data/f.csv" ∧
    joinStripOne "/data//" "f.csv" = "/data//f.csv" ∧
    remote_file_path "/data//" "f.csv" ≠ joinStripOne "/data//" "f.csv" :=
  ⟨rfl, rfl, by decide⟩

/-- Claim C4 (amended): the requested remote path is formed by stripping
ALL trailing `/` from `remote_path` and joining with a single `/`; this
agrees with the spec's strip-exactly-one reading whenever `remote_path`
does not end in two slashes, the first network access of each fetch body
targets exactly that path, and `"/data"` and `"/data/"` both yield
`"/data/f.csv"`. -/
theorem c4_path_join (remote_path file_name : String) (env : Env)
    (cols : Option (List String)) (enc : Option String) :
    (remote_path.toList.reverse.take 2 ≠ ['/', '/'] →
      remote_file_path remote_path file_name = joinStripOne remote_path file_name) ∧
    (get_csv_file_body env file_name remote_path cols).2.head? =
      some (.fileRead (remote_file_path remote_path file_name)) ∧
    (get_xml_file_to_string_body env file_name remote_path).2.head? =
      some (.fileRead (remote_file_path remote_path file_name)) ∧
    (file_to_string_body env file_name remote_path enc).2.head? =
      some (.fileRead (remote_file_path remote_path file_name)) ∧
    remote_file_path "/data" "f.csv" = "/data/f.csv" ∧
    remote_file_path "/data/" "f.csv" = "/data/f.csv" := by
  refine ⟨?_, ?_, ?_, ?_, rfl, rfl⟩
  · intro h
    unfold remote_file_path joinStripOne
    rw [rstrip_eq_stripOne remote_path h]
  · unfold get_csv_file_body
    split
    · rfl
    · split
      · rfl
      · split <;> rfl
  · unfold get_xml_file_to_string_body
    split
    · rfl
    · split <;> rfl
  · unfold file_to_string_body
    split
    · rfl
    · split
      · rfl
      · split <;> rfl

/-- Witness for C4's theorem at `remote_path = "/data/"`. -/
theorem c4_path_join_witness :
    remote_file_path "/data/" "f.csv" = joinStripOne "/data/" "f.csv" ∧
    (get_csv_file_body envBase "f.csv" "/data/" none).2.head? =
      some (.fileRead "/data/f.csv") :=
  ⟨(c4_path_join "/data/" "f.csv" envBase none none).1 (by decide),
   (c4_path_join "/data/" "f.csv" envBase none none).2.1⟩

/-- Claim C9: on a connected client with readable UTF-8 content, a
supplied non-empty `column_names` makes `get_csv_file` parse with no
header row and the names assigned positionally (the no-header parse call
receives exactly that list), while an absent `column_names` makes it
parse with the first line as the header row. -/
theorem c9_header_modes (env : Env) (r : SFTPReader) (fn rp : String)
    (cs : List String) (raw : Bytes) (content : String) (h : SftpHandle)
    (hconn : r._sftp = some h) (hcs : cs ≠ [])
    (hread : env.readResult (remote_file_path rp fn) = .ok raw)
    (hdec : env.decode "utf-8" raw = .ok content) :
    get_csv_file_body env fn rp (some cs) =
      (env.readCsvNoHeader content cs,
        [.fileRead (remote_file_path rp fn), .readCsvNoHeader content cs]) ∧
    get_csv_file_body env fn rp none =
      (env.readCsvHeader content,
        [.fileRead (remote_file_path rp fn), .readCsvHeader content]) ∧
    Event.readCsvNoHeader content cs ∈ (get_csv_file env r fn rp (some cs)).2.2 ∧
    Event.readCsvHeader content ∈ (get_csv_file env r fn rp none).2.2 := by
  have htl : truthyList (some cs) = true := by
    simp [truthyList, hcs]
  have hb1 : get_csv_file_body env fn rp (some cs) =
      (env.readCsvNoHeader content cs,
        [.fileRead (remote_file_path rp fn), .readCsvNoHeader content cs]) := by
    simp [get_csv_file_body, hread, hdec, htl]
  have hb2 : get_csv_file_body env fn rp none =
      (env.readCsvHeader content,
        [.fileRead (remote_file_path rp fn), .readCsvHeader content]) := by
    simp [get_csv_file_body, hread, hdec, truthyList]
  refine ⟨hb1, hb2, ?_, ?_⟩
  · cases hp : env.readCsvNoHeader content cs with
    | ok df => simp [get_csv_file, hconn, hb1, hp]
    | error e => simp [get_csv_file, hconn, hb1, hp]
  · cases hp : env.readCsvHeader content with
    | ok df => simp [get_csv_file, hconn, hb2, hp]
    | error e => simp [get_csv_file, hconn, hb2, hp]

/-- Witness for C9's theorem on the spec's example content
`"1,Alice\n2,Bob"` with `column_names = ["id", "name"]`. -/
theorem c9_header_modes_witness :
    get_csv_file_body envCsv "data.csv" "." (some ["id", "name"]) =
      (.ok { tag := 1 },
        [.fileRead "./data.csv",
          .readCsvNoHeader "1,Alice\n2,Bob" ["id", "name"]]) ∧
    Event.readCsvNoHeader "1,Alice\n2,Bob" ["id", "name"] ∈
      (get_csv_file envCsv readerOpen "data.csv" "." (some ["id", "name"])).2.2 ∧
    Event.readCsvHeader "1,Alice\n2,Bob" ∈
      (get_csv_file envCsv readerOpen "data.csv" "." none).2.2 := by
  have h := c9_header_modes envCsv readerOpen "data.csv" "." ["id", "name"]
    [49] "1,Alice\n2,Bob" 0 rfl (by decide) rfl rfl
  exact ⟨h.1, h.2.2.1, h.2.2.2⟩

/-- Claim C10: passing `column_names = []` behaves exactly like omitting
it (`if column_names:` is falsy on the empty list): the whole call and
the body agree with the `None` case, and with readable UTF-8 content the
first line is parsed as the header row. -/
theorem c10_empty_columns (env : Env) (r : SFTPReader) (fn rp : String) :
    get_csv_file env r fn rp (some []) = get_csv_file env r fn rp none ∧
    get_csv_file_body env fn rp (some []) = get_csv_file_body env fn rp none ∧
    (∀ raw content, env.readResult (remote_file_path rp fn) = .ok raw →
      env.decode "utf-8" raw = .ok content →
      get_csv_file_body env fn rp (some []) =
        (env.readCsvHeader content,
          [.fileRead (remote_file_path rp fn), .readCsvHeader content])) := by
  have hb : get_csv_file_body env fn rp (some []) = get_csv_file_body env fn rp none := by
    unfold get_csv_file_body
    cases env.readResult (remote_file_path rp fn) with
    | error e => rfl
    | ok raw =>
      cases env.decode "utf-8" raw with
      | error e => rfl
      | ok content => rfl
  have hw : get_csv_file env r fn rp (some []) = get_csv_file env r fn rp none := by
    unfold get_csv_file
    cases r._sftp with
    | none => rfl
    | some h => rw [hb]
  refine ⟨hw, hb, ?_⟩
  intro raw content hr hd
  rw [hb]
  simp [get_csv_file_body, hr, hd, truthyList]

/-- Witness for C10's theorem on concrete CSV content: the empty list
takes the header-parsing path. -/
theorem c10_empty_columns_witness :
    get_csv_file_body envCsv "data.csv" "." (some []) =
      (.ok { tag := 0 },
        [.fileRead "./data.csv", .readCsvHeader "1,Alice\n2,Bob"]) ∧
    get_csv_file envCsv readerOpen "data.csv" "." (some []) =
      get_csv_file envCsv readerOpen "data.csv" "." none := by
  have h := c10_empty_columns envCsv readerOpen "data.csv" "."
  exact ⟨h.2.2 [49] "1,Alice\n2,Bob" rfl rfl, h.1⟩

end Cornflex
